import Mathlib

/-
  Verification development for the wally-package-types link rewriter.

  The Rust sources are shallowly embedded:
  - src/link_mutator.rs  : type-forwarding codegen (new module layout)
  - src/require_parser.rs: require-expression matcher (new module layout)
  - src/command.rs       : the orchestrator (old layout, panic-based), with its own
                           copies of the matcher and codegen
  - src/sourcemap.rs     : sourcemap node data model

  Conventions of the embedding:
  - Rust panics (assert!, unwrap, expect, explicit panic) are modelled as
    `Except.error` carrying the panic message.
  - full_moon token references are modelled by their significant text; trivia
    tokens (whitespace attached to statements) are modelled as `Option String`.
  - File paths are plain strings; canonicalization is the identity on the model
    (the sourcemap is assumed canonical, as it is after `mutate_sourcemap`).
-/

/-- Rust `str::trim` (and Lean `String.trim`) restated over the underlying
character list, so that concrete instances reduce inside the kernel: strip
whitespace from both ends. -/
def trim_text (s : String) : String :=
  ⟨((s.data.dropWhile Char.isWhitespace).reverse.dropWhile Char.isWhitespace).reverse⟩

/-- Rust `str::ends_with` restated over the underlying character list. -/
def ends_with_text (s suffixPart : String) : Bool :=
  suffixPart.data.isSuffixOf s.data

/-- full_moon token payloads, restricted to the token kinds the tool inspects. -/
inductive TokType where
  | stringLiteral (literal : String)
  | identifier (ident : String)
  | otherTok
deriving Repr, DecidableEq

mutual

/-- Luau type expressions (full_moon `TypeInfo`), with the constructors the tool
distinguishes; all other shapes are collapsed into representative constructors,
which the codegen treats uniformly (its catch-all arm). -/
inductive TypeInfo where
  | basic (name : String)
  | boolean (token : String)
  | module (moduleName : String) (type_info : IndexedTypeInfo)
  | genericPack (name : String)
  | union (lhs rhs : TypeInfo)
  | table (fields : List (String × TypeInfo))
  | callback (args : List TypeInfo) (ret : TypeInfo)
  | optional (base : TypeInfo)
  | otherTypeInfo

/-- full_moon `IndexedTypeInfo`: the right-hand side of a `Module.Name` index. -/
inductive IndexedTypeInfo where
  | basic (base : String)
  | generic (base : String) (generics : List TypeInfo)

end

/-- full_moon `GenericParameterInfo`: a generic parameter name, plain or variadic. -/
inductive GenericParameterInfo where
  | name (token : String)
  | variadic (name : String)
deriving Repr, DecidableEq

/-- The name token carried by a `GenericParameterInfo`, as rendered by
`name.token().to_string()` in the source. -/
def parameter_info_name : GenericParameterInfo → String
  | .name token => token
  | .variadic name => name

/-- full_moon `GenericDeclarationParameter`: a parameter together with its
optional default type. -/
structure GenericDeclarationParameter where
  parameter : GenericParameterInfo
  default_type : Option TypeInfo

/-- full_moon `ExportedTypeDeclaration`, flattened with its inner
`TypeDeclaration`: `export type <type_name><generics?> = <type_definition>`.
A `GenericDeclaration` is modelled as the list of its parameters. -/
structure ExportedTypeDeclaration where
  type_name : String
  generics : Option (List GenericDeclarationParameter)
  type_definition : TypeInfo

/-- From src/link_mutator.rs `should_keep_default_type`: a default type is kept
verbatim only when it is a bare name contained in `resolved_types`, or a
literal boolean type; every other shape falls into the catch-all `false`. -/
def should_keep_default_type (type_info : TypeInfo) (resolved_types : List String) : Bool :=
  match type_info with
  | .basic name => resolved_types.contains name
  | .boolean _ => true
  | _ => false

/-- From src/link_mutator.rs `strip_unknown_default_generics`: map over the
generic parameters, dropping each default that `should_keep_default_type`
rejects while keeping the parameter itself. -/
def strip_unknown_default_generics (generics : List GenericDeclarationParameter)
    (resolved_types : List String) : List GenericDeclarationParameter :=
  generics.map (fun decl =>
    match decl.default_type with
    | some type_info =>
        if should_keep_default_type type_info resolved_types then decl
        else { decl with default_type := none }
    | none => { decl with default_type := none })

/-- The built-in primitive type names inlined in
src/link_mutator.rs `create_new_type_declaration`. -/
def builtin_type_names : List String :=
  ["any", "boolean", "buffer", "never", "number", "string", "thread", "unknown"]

/-- From src/link_mutator.rs `create_new_type_declaration`: rebuild a
declaration so that its body indexes into the synthetic `REQUIRED_MODULE`
binding (applying the declaration's own generic parameters as arguments when
it is generic), after dropping generic defaults that are not resolvable from
the parameter names, the built-in primitives, and `known_type_names`. -/
def create_new_type_declaration (stmt : ExportedTypeDeclaration)
    (known_type_names : List String) : ExportedTypeDeclaration :=
  let type_info : IndexedTypeInfo :=
    match stmt.generics with
    | some generics =>
        .generic stmt.type_name
          (generics.map (fun decl =>
            match decl.parameter with
            | .name token => TypeInfo.basic token
            | .variadic name => TypeInfo.genericPack name))
    | none => .basic stmt.type_name
  let resolved_types : List String :=
    (match stmt.generics with
     | some generics => generics.map (fun generic => parameter_info_name generic.parameter)
     | none => []) ++ (builtin_type_names ++ known_type_names)
  let original_type_declaration : ExportedTypeDeclaration :=
    match stmt.generics with
    | some generics =>
        { stmt with generics := some (strip_unknown_default_generics generics resolved_types) }
    | none => stmt
  { original_type_declaration with
      type_definition := TypeInfo.module "REQUIRED_MODULE" type_info }

/-- A quick evaluation helper for statements about a single generic parameter:
the default type recorded at parameter position `j` of a forwarded
declaration. -/
def declaration_default_at (d : ExportedTypeDeclaration) (j : Nat) : Option TypeInfo :=
  match d.generics with
  | some g => (g.get? j).bind (fun p => p.default_type)
  | none => none

mutual

/-- full_moon (new) `Expression`, restricted to the constructors the matcher
distinguishes; the remaining shapes (binary operators, parentheses, table
constructors, ...) collapse into `otherExpr`, which every match treats via its
catch-all arm. -/
inductive RExpression where
  | var (v : RVar)
  | string (token : TokType)
  | functionCall (call : RFunctionCall)
  | number (token : TokType)
  | symbol (token : TokType)
  | otherExpr

/-- full_moon `Var`: either a suffixed variable expression or a plain name. -/
inductive RVar where
  | expression (var_expression : RVarExpression)
  | name (token : String)

/-- full_moon `VarExpression`: a rendered, trimmed-on-use prefix text and the
list of suffixes. -/
inductive RVarExpression where
  | mk (prefixText : String) (suffixes : List RSuffix)

/-- full_moon `FunctionCall`: a rendered prefix text and the list of suffixes. -/
inductive RFunctionCall where
  | mk (prefixText : String) (suffixes : List RSuffix)

/-- full_moon `Suffix`. -/
inductive RSuffix where
  | index (i : RIndex)
  | call (c : RCall)

/-- full_moon `Index`: `.name` or `[expression]`. -/
inductive RIndex where
  | dot (name : String)
  | brackets (expression : RExpression)

/-- full_moon `Call`. -/
inductive RCall where
  | anonymousCall (args : RFunctionArgs)
  | methodCall (name : String) (args : RFunctionArgs)

/-- full_moon `FunctionArgs`. -/
inductive RFunctionArgs where
  | parentheses (arguments : List RExpression)
  | stringArg (token : TokType)
  | tableConstructorArg

end

/-- Rendered prefix text of a `VarExpression` (`var_expression.prefix().to_string()`). -/
def RVarExpression.prefixText : RVarExpression → String
  | .mk p _ => p

/-- Suffix list of a `VarExpression`. -/
def RVarExpression.suffixes : RVarExpression → List RSuffix
  | .mk _ s => s

/-- Rendered prefix text of a `FunctionCall` (`call.prefix().to_string()`). -/
def RFunctionCall.prefixText : RFunctionCall → String
  | .mk p _ => p

/-- Suffix list of a `FunctionCall`. -/
def RFunctionCall.suffixes : RFunctionCall → List RSuffix
  | .mk _ s => s

/-- The suffix-walking loop of src/require_parser.rs `expression_to_components`:
each suffix must be an `Index`; a `.name` contributes the trimmed name, a
`['literal']` contributes the trimmed string literal, and everything else
fails with the corresponding `bail!` message. -/
def suffixes_to_components : List RSuffix → Except String (List String)
  | [] => .ok []
  | .index (.dot name) :: rest =>
      (suffixes_to_components rest).map (fun tail => trim_text name :: tail)
  | .index (.brackets expression) :: rest =>
      match expression with
      | .string name =>
          match name with
          | .stringLiteral literal =>
              (suffixes_to_components rest).map (fun tail => trim_text literal :: tail)
          | _ => .error "require expression not supported: expression contains brackets component not of the form ['value']"
      | _ => .error "require expression not supported: expression contains brackets component not of the form ['value']"
  | .call _ :: _ => .error "require expression not supported: expression must contain components of form `.value` or `['value']`"

/-- From src/require_parser.rs `expression_to_components`: the argument must be
a `Var::Expression`; its trimmed prefix is the first component, followed by
the components contributed by the suffixes. -/
def expression_to_components (expression : RExpression) : Except String (List String) :=
  match expression with
  | .var (.expression var_expression) =>
      (suffixes_to_components var_expression.suffixes).map
        (fun tail => trim_text var_expression.prefixText :: tail)
  | _ => .error "require expression not supported: expression must contain components of form `.value` or `['value']`"

/-- From src/require_parser.rs `match_require`: the expression must be a
function call whose trimmed prefix is `require` with exactly one suffix, that
suffix an anonymous parenthesised call carrying exactly one argument, which is
then decomposed by `expression_to_components`; every other shape takes one of
the `bail!` arms (the source interpolates the rendered expression into the
message; the model keeps the fixed message text). -/
def match_require (expression : RExpression) : Except String (List String) :=
  match expression with
  | .functionCall call =>
      if trim_text call.prefixText = "require" ∧ call.suffixes.length = 1 then
        match call.suffixes.head? with
        | some (.call (.anonymousCall (.parentheses arguments))) =>
            match arguments with
            | [argument] => expression_to_components argument
            | _ => .error "is not a require function call"
        | _ => .error "is not a require function call"
      else .error "unknown require expression"
  | _ => .error "is not a function call"

/-- full_moon (new) statements, restricted to what the link mutator builds or
inspects: local assignments, exported type declarations, and everything else. -/
inductive LStmt where
  | localAssignment (names : List String) (equal : Option String) (expressions : List RExpression)
  | exportedTypeDeclaration (d : ExportedTypeDeclaration)
  | otherStmt

/-- full_moon (new) last statements of a block. -/
inductive LLastStmt where
  | ret (returns : List RExpression)
  | brk
  | cont

/-- full_moon (new) `Ast` / block: ordered statements with their optional
trailing trivia token, and an optional last statement. -/
structure LAst where
  stmts : List (LStmt × Option String)
  last_stmt : Option (LLastStmt × Option String)

/-- The exported type declarations of a parsed module, in source order (the
`filter_map` in src/link_mutator.rs `type_declarations_from_source`). -/
def exported_declarations (ast : LAst) : List ExportedTypeDeclaration :=
  ast.stmts.filterMap (fun stmt =>
    match stmt.1 with
    | .exportedTypeDeclaration d => some d
    | _ => none)

/-- From src/link_mutator.rs `type_declarations_from_source`: the parse result
of the module source (parsing itself is modelled upstream as an
`Except String LAst`), then the exported declarations in order. -/
def type_declarations_from_source (parse_result : Except String LAst) :
    Except String (List ExportedTypeDeclaration) :=
  match parse_result with
  | .error errors => .error errors
  | .ok parsed_module => .ok (exported_declarations parsed_module)

/-- From src/link_mutator.rs `re_export_type_declarations`: the known names are
the names of ALL declarations of the module (the whole list, computed before
any forwarding), and each declaration is forwarded with that same list,
followed by a newline trivia token. -/
def re_export_type_declarations (stmts : List ExportedTypeDeclaration) :
    List (LStmt × Option String) :=
  let known_type_names : List String := stmts.map (fun stmt => stmt.type_name)
  stmts.map (fun stmt =>
    (LStmt.exportedTypeDeclaration (create_new_type_declaration stmt known_type_names),
     some "\n"))

/-- From src/link_mutator.rs `extract_require_into_local_stmt`:
`local REQUIRED_MODULE = <return_expressions>`. -/
def extract_require_into_local_stmt (return_expressions : List RExpression) :
    LStmt × Option String :=
  (LStmt.localAssignment ["REQUIRED_MODULE"] (some " = ") return_expressions, none)

/-- From src/link_mutator.rs `create_return_require_variable`:
`return REQUIRED_MODULE`. -/
def create_return_require_variable : LLastStmt × Option String :=
  (LLastStmt.ret [RExpression.symbol (TokType.identifier "REQUIRED_MODULE")], none)

/-- src/link_mutator.rs `MutateLinkResult`. -/
inductive MutateLinkResult where
  | changed (ast : LAst)
  | unchanged

/-- From src/link_mutator.rs `mutate_link`: extract the module's exported type
declarations (propagating a parse failure), return `Unchanged` when there are
none, otherwise replace the link's statements with the synthetic local binding
followed by the forwarded declarations and a final `return REQUIRED_MODULE`. -/
def mutate_link (parsed_code : LAst) (return_expressions : List RExpression)
    (contents : Except String LAst) : Except String MutateLinkResult :=
  match type_declarations_from_source contents with
  | .error e => .error e
  | .ok type_declarations =>
      if type_declarations.isEmpty then
        .ok .unchanged
      else
        .ok (.changed { parsed_code with
          stmts := extract_require_into_local_stmt return_expressions
            :: re_export_type_declarations type_declarations,
          last_stmt := some create_return_require_variable })

mutual

/-- full_moon (old, as used by src/command.rs) `Expression`: value-carrying
expressions; the other old variants (binary/unary operators, parentheses)
collapse into `otherOldExpr` and take the catch-all arms. -/
inductive OldExpression where
  | value (v : OldValue)
  | otherOldExpr

/-- full_moon (old) `Value`. -/
inductive OldValue where
  | functionCall (call : OldFunctionCall)
  | var (v : OldVar)
  | string (token : TokType)
  | symbol (token : String)
  | number (token : String)
  | otherOldValue

/-- full_moon (old) `Var`. -/
inductive OldVar where
  | expression (var_expression : OldVarExpression)
  | name (token : String)

/-- full_moon (old) `VarExpression`: rendered prefix text and suffixes. -/
inductive OldVarExpression where
  | mk (prefixText : String) (suffixes : List OldSuffix)

/-- full_moon (old) `FunctionCall`: rendered prefix text and suffixes. -/
inductive OldFunctionCall where
  | mk (prefixText : String) (suffixes : List OldSuffix)

/-- full_moon (old) `Suffix`. -/
inductive OldSuffix where
  | index (i : OldIndex)
  | call (c : OldCall)

/-- full_moon (old) `Index`. -/
inductive OldIndex where
  | dot (name : String)
  | brackets (expression : OldExpression)

/-- full_moon (old) `Call`. -/
inductive OldCall where
  | anonymousCall (args : OldFunctionArgs)
  | methodCall (name : String) (args : OldFunctionArgs)

/-- full_moon (old) `FunctionArgs`. -/
inductive OldFunctionArgs where
  | parentheses (arguments : List OldExpression)
  | stringArg (token : TokType)
  | tableConstructorArg

end

/-- Rendered prefix text of an old `VarExpression`. -/
def OldVarExpression.prefixText : OldVarExpression → String
  | .mk p _ => p

/-- Suffix list of an old `VarExpression`. -/
def OldVarExpression.suffixes : OldVarExpression → List OldSuffix
  | .mk _ s => s

/-- Rendered prefix text of an old `FunctionCall`. -/
def OldFunctionCall.prefixText : OldFunctionCall → String
  | .mk p _ => p

/-- Suffix list of an old `FunctionCall`. -/
def OldFunctionCall.suffixes : OldFunctionCall → List OldSuffix
  | .mk _ s => s

/-- The suffix-walking loop of src/command.rs `expression_to_components`; the
panics (`non-string brackets index`, `incorrect suffix`) become errors. -/
def command_suffixes_to_components : List OldSuffix → Except String (List String)
  | [] => .ok []
  | .index (.dot name) :: rest =>
      (command_suffixes_to_components rest).map (fun tail => trim_text name :: tail)
  | .index (.brackets expression) :: rest =>
      match expression with
      | .value v =>
          match v with
          | .string name =>
              match name with
              | .stringLiteral literal =>
                  (command_suffixes_to_components rest).map (fun tail => trim_text literal :: tail)
              | _ => .error "non-string brackets index"
          | _ => .error "non-string brackets index"
      | _ => .error "non-string brackets index"
  | .call _ :: _ => .error "incorrect suffix"

/-- From src/command.rs `expression_to_components` (the old, panicking copy):
the argument must be a `Value::Var(Var::Expression(..))`; its trimmed prefix is
the first component, then the suffix components. -/
def command_expression_to_components (expression : OldExpression) :
    Except String (List String) :=
  match expression with
  | .value v =>
      match v with
      | .var (.expression var_expression) =>
          (command_suffixes_to_components var_expression.suffixes).map
            (fun tail => trim_text var_expression.prefixText :: tail)
      | _ => .error "unknown require expression"
  | _ => .error "unknown require expression"

/-- From src/command.rs `match_require` (the old copy): returns
`Option<Vec<String>>`; a non-call value or a call whose prefix is not
`require` (or with more than one suffix) panics, while a `require` call whose
single suffix is not a one-argument parenthesised anonymous call falls through
to `None`. -/
def command_match_require (expression : OldExpression) :
    Except String (Option (List String)) :=
  match expression with
  | .value v =>
      match v with
      | .functionCall call =>
          if trim_text call.prefixText = "require" ∧ call.suffixes.length = 1 then
            match call.suffixes.head? with
            | some (.call (.anonymousCall (.parentheses arguments))) =>
                match arguments with
                | [argument] => (command_expression_to_components argument).map some
                | _ => .ok none
            | _ => .ok none
          else .error "unknown require expression"
      | _ => .error "unknown require expression"
  | _ => .error "unknown require expression"

/-- src/command.rs `SourcemapNode` (deserialized sourcemap tree): name, class
name, ordered file paths, ordered children. -/
inductive SourcemapNode where
  | mk (name : String) (class_name : String) (file_paths : List String)
      (children : List SourcemapNode)

/-- Instance label of a node. -/
def SourcemapNode.name : SourcemapNode → String
  | .mk n _ _ _ => n

/-- Class tag of a node. -/
def SourcemapNode.class_name : SourcemapNode → String
  | .mk _ c _ _ => c

/-- Ordered backing file paths of a node. -/
def SourcemapNode.file_paths : SourcemapNode → List String
  | .mk _ _ f _ => f

/-- Ordered children of a node. -/
def SourcemapNode.children : SourcemapNode → List SourcemapNode
  | .mk _ _ _ c => c

/-- From src/command.rs `SourcemapNode::find_child`: the first child with the
given name, in child-list order. -/
def SourcemapNode.find_child (self : SourcemapNode) (name : String) :
    Option SourcemapNode :=
  self.children.find? (fun child => child.name == name)

mutual

/-- From src/command.rs `find_node`: the root-to-node chain of a node whose
`file_paths` contains `path`. The source drives an explicit stack, which pops
the most recently pushed entry first: a node is checked before its children,
and among siblings the later ones are explored first. That traversal is
rendered recursively here, with `find_node_in_list` preferring later siblings
to mirror the stack order. -/
def find_node (path : String) : SourcemapNode → Option (List SourcemapNode)
  | .mk name class_name file_paths children =>
    if file_paths.contains path then some [SourcemapNode.mk name class_name file_paths children]
    else
      match find_node_in_list path children with
      | some chain => some (SourcemapNode.mk name class_name file_paths children :: chain)
      | none => none

/-- Sibling traversal for `find_node`: later siblings take precedence, as they
sit on top of the source's explicit stack. -/
def find_node_in_list (path : String) : List SourcemapNode → Option (List SourcemapNode)
  | [] => none
  | node :: rest =>
      match find_node_in_list path rest with
      | some chain => some chain
      | none => find_node path node

end

/-- The component-walking loop of src/command.rs `mutate_thunk`: `"Parent"`
pops the chain's last node (`Vec::pop`, whose `expect` fires only when the
chain is already empty); any other component looks up a same-named child of
the chain's last node (`last().unwrap()` fires on an empty chain) and pushes
it. -/
def resolve_chain (node_path : List SourcemapNode) :
    List String → Except String (List SourcemapNode)
  | [] => .ok node_path
  | component :: rest =>
      if component = "Parent" then
        match node_path with
        | [] => .error "No parent available"
        | _ => resolve_chain node_path.dropLast rest
      else
        match node_path.getLast? with
        | none => .error "called unwrap on a None value"
        | some tail =>
            match tail.find_child component with
            | none => .error "unable to find child"
            | some child => resolve_chain (node_path ++ [child]) rest

/-- The component walk followed by `node_path.last().unwrap()` at the end of
the resolution in src/command.rs `mutate_thunk`. -/
def resolve_node (node_path : List SourcemapNode) (components : List String) :
    Except String SourcemapNode :=
  match resolve_chain node_path components with
  | .error e => .error e
  | .ok final_path =>
      match final_path.getLast? with
      | none => .error "called unwrap on a None value"
      | some current => .ok current

/-- The anchor selection and resolution of src/command.rs `mutate_thunk`: the
first component must be `script` (anchor = the chain of the node owning the
requesting file) or `game` (anchor = `[root]`); the `assert!` on any other
first component is an error. -/
def resolve_anchor (root : SourcemapNode) (canonical_path : String)
    (path_components : List String) : Except String SourcemapNode :=
  match path_components with
  | [] => .error "No path components"
  | first_in_chain :: rest =>
      if first_in_chain = "script" ∨ first_in_chain = "game" then
        match (if first_in_chain = "script" then
                 match find_node canonical_path root with
                 | some node_path => Except.ok node_path
                 | none => Except.error "could not find node path"
               else Except.ok [root]) with
        | .error e => .error e
        | .ok node_path => resolve_node node_path rest
      else .error "assertion failed: first_in_chain is script or game"

/-- The module-file selection inlined in src/command.rs `mutate_thunk`:
`current.file_paths.get(0).expect("No file path for require")` — the first
entry of `file_paths`, with no extension filtering. -/
def select_module_file (current : SourcemapNode) : Except String String :=
  match current.file_paths.head? with
  | some file_path => .ok file_path
  | none => .error "No file path for require"

/-- From src/command.rs `create_new_type_declaration` (the old copy): identical
to the link-mutator version except that NO default stripping happens — the
generic list is carried over verbatim. -/
def command_create_new_type_declaration (stmt : ExportedTypeDeclaration) :
    ExportedTypeDeclaration :=
  let type_info : IndexedTypeInfo :=
    match stmt.generics with
    | some generics =>
        .generic stmt.type_name
          (generics.map (fun decl =>
            match decl.parameter with
            | .name token => TypeInfo.basic token
            | .variadic name => TypeInfo.genericPack name))
    | none => .basic stmt.type_name
  { stmt with type_definition := TypeInfo.module "REQUIRED_MODULE" type_info }

/-- full_moon (old) statements as built or inspected by src/command.rs. -/
inductive OldStmt where
  | localAssignment (names : List String) (equal : Option String)
      (expressions : List OldExpression)
  | exportedTypeDeclaration (d : ExportedTypeDeclaration)
  | otherOldStmt

/-- full_moon (old) last statements. -/
inductive OldLastStmt where
  | ret (returns : List OldExpression)
  | brk
  | cont

/-- full_moon (old) `Ast` / block. -/
structure OldAst where
  stmts : List (OldStmt × Option String)
  last_stmt : Option (OldLastStmt × Option String)

/-- The exported type declarations of an old-layout parsed module, in source
order (the statement loop of src/command.rs `mutate_thunk`). -/
def old_exported_declarations (ast : OldAst) : List ExportedTypeDeclaration :=
  ast.stmts.filterMap (fun stmt =>
    match stmt.1 with
    | .exportedTypeDeclaration d => some d
    | _ => none)

/-- From src/command.rs `mutate_thunk`, given the parsed link file: check that
a last statement exists (`assert!`), require it to be a return (a `break` or
`continue` silently skips the whole rewrite and succeeds), match the first
returned expression as a require call, resolve it against the sourcemap,
select the target module file, read and parse it (`read_module`), and — only
when the module has at least one exported type declaration — produce the
rewritten link (`some new_ast` models the `std::fs::write`; `none` models
returning without touching the file). -/
def mutate_thunk (parsed_code : OldAst) (root : SourcemapNode)
    (canonical_path : String) (read_module : String → Except String OldAst) :
    Except String (Option OldAst) :=
  match parsed_code.last_stmt with
  | none => .error "assertion failed: last_stmt is_some"
  | some (.brk, _) => .ok none
  | some (.cont, _) => .ok none
  | some (.ret returns, _) =>
      match returns with
      | [] => .error "called unwrap on a None value"
      | returned_expression :: _ =>
          match command_match_require returned_expression with
          | .error e => .error e
          | .ok none => .error "could not resolve path for require"
          | .ok (some path_components) =>
              match resolve_anchor root canonical_path path_components with
              | .error e => .error e
              | .ok current =>
                  match select_module_file current with
                  | .error e => .error e
                  | .ok file_path =>
                      match read_module file_path with
                      | .error e => .error e
                      | .ok parsed_module =>
                          let type_declarations := old_exported_declarations parsed_module
                          if type_declarations.isEmpty then .ok none
                          else
                              .ok (some { parsed_code with
                                stmts :=
                                  (OldStmt.localAssignment ["REQUIRED_MODULE"]
                                      (some " = ") returns, none)
                                    :: type_declarations.map (fun d =>
                                        (OldStmt.exportedTypeDeclaration
                                            (command_create_new_type_declaration d),
                                         some "\n")),
                                last_stmt := some
                                  (OldLastStmt.ret
                                    [OldExpression.value
                                      (OldValue.symbol "REQUIRED_MODULE")], none) })

/-- A link file discovered by the batch driver: its (canonical) path and the
result of reading and parsing it. -/
structure LinkFile where
  path : String
  parse : Except String OldAst

/-- One directory entry of the packages folder: either a plain link file, or
the conventionally named `_Index` directory holding per-dependency
subdirectories, each containing link files. -/
inductive PackagesEntry where
  | file (f : LinkFile)
  | indexDirectory (packages : List (List LinkFile))

/-- One `mutate_thunk` invocation of the batch driver: read and parse the link
file, then run `mutate_thunk`; `some (path, new_ast)` records the in-place
write. -/
def run_link_file (root : SourcemapNode) (read_module : String → Except String OldAst)
    (f : LinkFile) : Except String (Option (String × OldAst)) :=
  match f.parse with
  | .error e => .error e
  | .ok parsed_code =>
      match mutate_thunk parsed_code root f.path read_module with
      | .error e => .error e
      | .ok none => .ok none
      | .ok (some new_ast) => .ok (some (f.path, new_ast))

/-- The thunk loop of src/command.rs `handle_index_directory`: each file is
processed with `mutate_thunk(..)?`, so the first failure aborts with that
error, keeping the writes performed so far. -/
def run_thunk_list (root : SourcemapNode) (read_module : String → Except String OldAst) :
    List LinkFile → List (String × OldAst) × Option String
  | [] => ([], none)
  | f :: rest =>
      match run_link_file root read_module f with
      | .error e => ([], some e)
      | .ok none => run_thunk_list root read_module rest
      | .ok (some write) =>
          (write :: (run_thunk_list root read_module rest).1,
           (run_thunk_list root read_module rest).2)

/-- From src/command.rs `handle_index_directory`: iterate the per-dependency
subdirectories in order, aborting at the first error. -/
def handle_index_directory (root : SourcemapNode)
    (read_module : String → Except String OldAst) :
    List (List LinkFile) → List (String × OldAst) × Option String
  | [] => ([], none)
  | package :: rest =>
      match (run_thunk_list root read_module package).2 with
      | some e => ((run_thunk_list root read_module package).1, some e)
      | none =>
          ((run_thunk_list root read_module package).1
             ++ (handle_index_directory root read_module rest).1,
           (handle_index_directory root read_module rest).2)

/-- From src/command.rs `Command::run` (after sourcemap loading and
canonicalization): iterate the packages-folder entries; the `_Index` entry is
delegated to `handle_index_directory`, every other entry goes through
`mutate_thunk(..)?`. Each `?` aborts the whole batch at the first per-file
error; the returned pair is (writes performed, error that stopped the run, if
any). -/
def command_run (root : SourcemapNode) (read_module : String → Except String OldAst) :
    List PackagesEntry → List (String × OldAst) × Option String
  | [] => ([], none)
  | .indexDirectory packages :: rest =>
      match (handle_index_directory root read_module packages).2 with
      | some e => ((handle_index_directory root read_module packages).1, some e)
      | none =>
          ((handle_index_directory root read_module packages).1
             ++ (command_run root read_module rest).1,
           (command_run root read_module rest).2)
  | .file f :: rest =>
      match run_link_file root read_module f with
      | .error e => ([], some e)
      | .ok none => command_run root read_module rest
      | .ok (some write) =>
          (write :: (command_run root read_module rest).1,
           (command_run root read_module rest).2)

/-- Modelled from the spec: `select_module_file(node)` as §4.1 describes it —
the first entry in `node.file_paths` whose extension marks it a script/module
source, failing with `NoModuleFileError` when none qualify. The spec does not
enumerate the qualifying extensions; script/module sources are taken to be
`.lua` and `.luau` files. Stated only to compare against the code's
`select_module_file`. -/
def select_module_file_spec (current : SourcemapNode) : Except String String :=
  match current.file_paths.find? (fun p => ends_with_text p ".lua" || ends_with_text p ".luau") with
  | some file_path => .ok file_path
  | none => .error "NoModuleFileError"

/-- Example tree: a sibling node of the requesting script's grandparent chain. -/
def sibling_node : SourcemapNode := .mk "Sibling" "ModuleScript" ["sibling.lua"] []

/-- Example tree: the requesting script's node, three levels deep. -/
def node_c : SourcemapNode := .mk "C" "ModuleScript" ["c.lua"] []

/-- Example tree: parent of the requesting node. -/
def node_b : SourcemapNode := .mk "B" "Folder" [] [node_c]

/-- Example tree: grandparent of the requesting node, holding `Sibling`. -/
def node_a : SourcemapNode := .mk "A" "Folder" [] [node_b, sibling_node]

/-- Example tree root. -/
def demo_root : SourcemapNode := .mk "game" "DataModel" [] [node_a]

/-- Example package node holding the target module file. -/
def pkg_node : SourcemapNode := .mk "Pkg" "ModuleScript" ["pkg.lua"] []

/-- Example root for the batch scenarios. -/
def batch_root : SourcemapNode := .mk "game" "DataModel" [] [pkg_node]

/-- Example declaration `export type Foo = string`. -/
def foo_decl : ExportedTypeDeclaration :=
  { type_name := "Foo", generics := none, type_definition := .basic "string" }

/-- Example old-layout module containing exactly one exported declaration. -/
def pkg_module_ast : OldAst :=
  { stmts := [(.exportedTypeDeclaration foo_decl, none)], last_stmt := none }

/-- Example module reader: only `pkg.lua` exists. -/
def demo_read_module : String → Except String OldAst :=
  fun p => if p = "pkg.lua" then .ok pkg_module_ast else .error "No such file"

/-- Example old-layout expression `require(game.Pkg)`. -/
def require_game_pkg : OldExpression :=
  .value (.functionCall (.mk "require"
    [.call (.anonymousCall (.parentheses
      [.value (.var (.expression (.mk "game" [.index (.dot "Pkg")])))]))]))

/-- Example link file body `return require(game.Pkg)`. -/
def link_ast : OldAst :=
  { stmts := [], last_stmt := some (.ret [require_game_pkg], none) }

/-- The rewrite `mutate_thunk` produces for `link_ast` against `batch_root`. -/
def rewritten_link_ast : OldAst :=
  { stmts :=
      [(.localAssignment ["REQUIRED_MODULE"] (some " = ") [require_game_pkg], none),
       (.exportedTypeDeclaration (command_create_new_type_declaration foo_decl), some "\n")],
    last_stmt := some (.ret [.value (.symbol "REQUIRED_MODULE")], none) }

/-- A link file whose parse has no last statement at all. -/
def bad_link : LinkFile := { path := "bad.lua", parse := .ok { stmts := [], last_stmt := none } }

/-- A well-formed link file that reaches the `Changed` outcome. -/
def good_link : LinkFile := { path := "link.lua", parse := .ok link_ast }

/-- `export type Value<T, S = Action> = Types.Value<T, S>`, placed BEFORE the
declaration of `Action` in the reversed-order counterexample. -/
def value_decl_rev : ExportedTypeDeclaration :=
  { type_name := "Value",
    generics := some
      [{ parameter := .name "T", default_type := none },
       { parameter := .name "S", default_type := some (.basic "Action") }],
    type_definition := .module "Types" (.generic "Value" [.basic "T", .basic "S"]) }

/-- `export type Action = string`. -/
def action_decl : ExportedTypeDeclaration :=
  { type_name := "Action", generics := none, type_definition := .basic "string" }

/-- New-layout expression `require(script.Parent.Example)`. -/
def require_dot_example : RExpression :=
  .functionCall (.mk "require"
    [.call (.anonymousCall (.parentheses
      [.var (.expression (.mk "script"
        [.index (.dot "Parent"), .index (.dot "Example")]))]))])

/-- New-layout expression `require(script.Parent['Example'])`. -/
def require_bracket_example : RExpression :=
  .functionCall (.mk "require"
    [.call (.anonymousCall (.parentheses
      [.var (.expression (.mk "script"
        [.index (.dot "Parent"),
         .index (.brackets (.string (.stringLiteral "Example")))]))]))])

/-- New-layout expression `require("literal/string")`. -/
def require_string_literal : RExpression :=
  .functionCall (.mk "require"
    [.call (.anonymousCall (.parentheses [.string (.stringLiteral "literal/string")]))])

/-- New-layout expression `require(script[3])`: a non-string bracket index. -/
def require_nonstring_index : RExpression :=
  .functionCall (.mk "require"
    [.call (.anonymousCall (.parentheses
      [.var (.expression (.mk "script" [.index (.brackets (.number .otherTok))]))]))])

/-- New-layout expression `require(require(x))`: a nested call argument. -/
def require_nested_call : RExpression :=
  .functionCall (.mk "require"
    [.call (.anonymousCall (.parentheses
      [.functionCall (.mk "require"
        [.call (.anonymousCall (.parentheses [.otherExpr]))])]))])

/-- New-layout expression `require:method(x)`: method-call syntax. -/
def require_method_call : RExpression :=
  .functionCall (.mk "require"
    [.call (.methodCall "method" (.parentheses [.otherExpr]))])

/-- A node with a non-script first file path, for the module-selection
comparison. -/
def mixed_node : SourcemapNode := .mk "Mixed" "ModuleScript" ["meta.json", "init.lua"] []

theorem strip_preserves_parameters (generics : List GenericDeclarationParameter)
    (resolved_types : List String) :
    (strip_unknown_default_generics generics resolved_types).map
        (fun decl => decl.parameter)
      = generics.map (fun decl => decl.parameter) := by
  unfold strip_unknown_default_generics
  rw [List.map_map]
  apply List.map_congr_left
  intro a _
  rcases a with ⟨param, dt⟩
  cases dt with
  | none => rfl
  | some ti => simp only [Function.comp]; split <;> rfl

/-- C10: for every generic parameter whose declared default type is anything
other than a bare type name or the literal boolean type (for example a
qualified `Foo.Bar` module index, a union, a table, or a callback type),
stripping always removes the default — whatever names `resolved_types`
contains — while every parameter itself is retained. -/
theorem c10_nonbasic_defaults_always_stripped (resolved_types : List String)
    (generics : List GenericDeclarationParameter) :
    (strip_unknown_default_generics generics resolved_types).map
        (fun decl => decl.parameter)
      = generics.map (fun decl => decl.parameter) ∧
    ∀ (j : Nat) (p : GenericDeclarationParameter),
      generics.get? j = some p →
      ∀ ti : TypeInfo, p.default_type = some ti →
        (∀ name, ti ≠ .basic name) → (∀ tok, ti ≠ .boolean tok) →
        ∃ q, (strip_unknown_default_generics generics resolved_types).get? j = some q ∧
          q.default_type = none ∧ q.parameter = p.parameter := by
  constructor
  · exact strip_preserves_parameters generics resolved_types
  · intro j p hp ti hdef hnb hnbool
    have hkeep : should_keep_default_type ti resolved_types = false := by
      cases ti <;> first
        | rfl
        | exact absurd rfl (hnb _)
        | exact absurd rfl (hnbool _)
    refine ⟨_, by rw [strip_unknown_default_generics, List.get?_map, hp]; rfl, ?_, ?_⟩ <;>
      (rcases p with ⟨param, dt⟩
       replace hdef : dt = some ti := hdef
       subst hdef
       simp [hkeep])

/-- C10 witness: a parameter `T` with default `Foo.Bar` loses its default even
though both `Foo` and `Bar` are in the resolvable set, and `T` is retained. -/
theorem c10_witness :
    ∃ q, (strip_unknown_default_generics
      [{ parameter := .name "T",
         default_type := some (.module "Foo" (.basic "Bar")) }] ["Foo", "Bar"]).get? 0
        = some q ∧ q.default_type = none ∧ q.parameter = .name "T" :=
  (c10_nonbasic_defaults_always_stripped ["Foo", "Bar"]
      [{ parameter := .name "T", default_type := some (.module "Foo" (.basic "Bar")) }]).2
    0 _ rfl (.module "Foo" (.basic "Bar")) rfl
    (fun _ h => nomatch h) (fun _ h => nomatch h)

/-- C2 counterexample: on a node whose file paths are
`["meta.json", "init.lua"]`, the code returns the first entry `meta.json`
outright, while the claimed extension-filtering selection would return
`init.lua`; the two disagree, so selection is NOT by qualifying extension. -/
theorem c2_counterexample :
    select_module_file mixed_node = .ok "meta.json" ∧
    select_module_file_spec mixed_node = .ok "init.lua" ∧
    ("meta.json" : String) ≠ "init.lua" :=
  ⟨rfl, rfl, by decide⟩

/-- C2 (amended): selecting the module file returns the FIRST entry of the
node's `file_paths` regardless of extension, and fails (the
`No file path for require` expect) exactly when `file_paths` is empty. -/
theorem c2_first_entry_no_extension_filter (current : SourcemapNode) :
    (∀ (file_path : String) (rest : List String),
        current.file_paths = file_path :: rest →
        select_module_file current = .ok file_path) ∧
    (current.file_paths = [] →
        select_module_file current = .error "No file path for require") := by
  constructor
  · intro file_path rest h
    unfold select_module_file
    rw [h]
    rfl
  · intro h
    unfold select_module_file
    rw [h]
    rfl

/-- C2 witness: the amended selection rule evaluated on the mixed node. -/
theorem c2_witness : select_module_file mixed_node = .ok "meta.json" :=
  (c2_first_entry_no_extension_filter mixed_node).1 "meta.json" ["init.lua"] rfl

/-- C4: each `Parent` component pops the ancestor chain's tail; resolving with
a leading `Parent` when the anchor chain is just the root always fails — the
pop empties the chain and every continuation (a further `Parent`'s
`pop().expect`, a child lookup's `last().unwrap()`, or the final
`last().unwrap()`) panics, modeled as an error — and resolving
`["script","Parent","Parent","Sibling"]` from a node three levels deep lands
on the grandparent's child named `Sibling`. -/
theorem c4_parent_pops_and_past_root_fails :
    (∀ (node_path : List SourcemapNode) (rest : List String), node_path ≠ [] →
        resolve_chain node_path ("Parent" :: rest)
          = resolve_chain node_path.dropLast rest) ∧
    (∀ (root : SourcemapNode) (rest : List String), ∃ msg,
        resolve_node [root] ("Parent" :: rest) = .error msg) ∧
    resolve_anchor demo_root "c.lua" ["script", "Parent", "Parent", "Sibling"]
      = .ok sibling_node := by
  refine ⟨?_, ?_, rfl⟩
  · intro node_path rest h
    cases node_path with
    | nil => exact absurd rfl h
    | cons a tl => rfl
  · intro root rest
    cases rest with
    | nil => exact ⟨"called unwrap on a None value", rfl⟩
    | cons c r =>
      by_cases hc : c = "Parent"
      · subst hc
        exact ⟨"No parent available", rfl⟩
      · refine ⟨"called unwrap on a None value", ?_⟩
        have hstep : resolve_chain ([] : List SourcemapNode) (c :: r)
            = .error "called unwrap on a None value" := by
          unfold resolve_chain
          rw [if_neg hc]
          rfl
        unfold resolve_node
        rw [show resolve_chain [root] ("Parent" :: c :: r)
              = resolve_chain [] (c :: r) from rfl, hstep]

/-- C4 witness: a concrete pop step, and a concrete past-the-root failure. -/
theorem c4_witness :
    resolve_chain [demo_root, node_a] ["Parent"] = resolve_chain [demo_root] [] ∧
    ∃ msg, resolve_node [demo_root] ["Parent"] = .error msg :=
  ⟨c4_parent_pops_and_past_root_fails.1 [demo_root, node_a] [] (by simp),
   c4_parent_pops_and_past_root_fails.2.1 demo_root []⟩

/-- C6: the matcher maps `require(script.Parent.Example)` and
`require(script.Parent['Example'])` to `["script","Parent","Example"]`, and
fails with an error — never a silent no-match; its result type carries no
no-match case — on a plain string-literal argument, a non-string bracket
index, a nested call argument, and method-call syntax; moreover any
call-shaped expression it accepts has exactly the supported
`require(<var-expression>)` shape: trimmed prefix `require` and a single
parenthesised one-argument anonymous call suffix. -/
theorem c6_matcher_shape :
    match_require require_dot_example = .ok ["script", "Parent", "Example"] ∧
    match_require require_bracket_example = .ok ["script", "Parent", "Example"] ∧
    (∃ msg, match_require require_string_literal = .error msg) ∧
    (∃ msg, match_require require_nonstring_index = .error msg) ∧
    (∃ msg, match_require require_nested_call = .error msg) ∧
    (∃ msg, match_require require_method_call = .error msg) ∧
    ∀ (call : RFunctionCall) (components : List String),
      match_require (.functionCall call) = .ok components →
      trim_text call.prefixText = "require" ∧
      ∃ argument, call.suffixes = [.call (.anonymousCall (.parentheses [argument]))] ∧
        expression_to_components argument = .ok components := by
  refine ⟨rfl, rfl, ⟨_, rfl⟩, ⟨_, rfl⟩, ⟨_, rfl⟩, ⟨_, rfl⟩, ?_⟩
  intro call components h
  obtain ⟨p, sfx⟩ := call
  unfold match_require at h
  simp only [RFunctionCall.prefixText, RFunctionCall.suffixes] at h ⊢
  by_cases hcond : trim_text p = "require" ∧ sfx.length = 1
  · rw [if_pos hcond] at h
    obtain ⟨hreq, hlen⟩ := hcond
    cases sfx with
    | nil => simp at hlen
    | cons a tl =>
      cases tl with
      | cons b tl2 => simp at hlen
      | nil =>
        cases a with
        | index i => exact Except.noConfusion h
        | call c =>
          cases c with
          | methodCall nm args => exact Except.noConfusion h
          | anonymousCall args =>
            cases args with
            | stringArg tok => exact Except.noConfusion h
            | tableConstructorArg => exact Except.noConfusion h
            | parentheses arguments =>
              cases arguments with
              | nil => exact Except.noConfusion h
              | cons x xtl =>
                cases xtl with
                | cons y ytl => exact Except.noConfusion h
                | nil => exact ⟨hreq, x, rfl, h⟩
  · rw [if_neg hcond] at h
    exact Except.noConfusion h

/-- C6 witness: the shape characterisation applied to the dotted example. -/
theorem c6_witness :
    trim_text (RFunctionCall.mk "require"
      [.call (.anonymousCall (.parentheses
        [.var (.expression (.mk "script"
          [.index (.dot "Parent"), .index (.dot "Example")]))]))]).prefixText
      = "require" ∧
    ∃ argument,
      (RFunctionCall.mk "require"
        [.call (.anonymousCall (.parentheses
          [.var (.expression (.mk "script"
            [.index (.dot "Parent"), .index (.dot "Example")]))]))]).suffixes
        = [.call (.anonymousCall (.parentheses [argument]))] ∧
      expression_to_components argument = .ok ["script", "Parent", "Example"] :=
  c6_matcher_shape.2.2.2.2.2.2
    (RFunctionCall.mk "require"
      [.call (.anonymousCall (.parentheses
        [.var (.expression (.mk "script"
          [.index (.dot "Parent"), .index (.dot "Example")]))]))])
    ["script", "Parent", "Example"] rfl

/-- C8 counterexample: a link file whose final statement is `break` — not a
single-expression return — makes `mutate_thunk` silently succeed without a
write (`Ok` with nothing written) instead of producing any failure. -/
theorem c8_counterexample :
    mutate_thunk { stmts := [], last_stmt := some (.brk, none) } batch_root "p"
        demo_read_module = .ok none ∧
    ∀ msg, mutate_thunk { stmts := [], last_stmt := some (.brk, none) } batch_root "p"
        demo_read_module ≠ .error msg :=
  ⟨rfl, fun _ h => Except.noConfusion h⟩

/-- C8 (amended): a link file with no final statement fails (the `assert!`),
and a final return with an empty expression list fails (the `unwrap`), but a
final `break` or `continue` silently succeeds without a write, and a return
with several expressions is not rejected as malformed: it succeeds or fails
exactly as the link returning only its first expression does. -/
theorem c8_amended :
    (∀ (stmts : List (OldStmt × Option String)) (root : SourcemapNode)
        (canonical_path : String) (read_module : String → Except String OldAst),
        mutate_thunk { stmts := stmts, last_stmt := none } root canonical_path
            read_module = .error "assertion failed: last_stmt is_some") ∧
    (∀ (stmts : List (OldStmt × Option String)) (trivia : Option String)
        (root : SourcemapNode) (canonical_path : String)
        (read_module : String → Except String OldAst),
        mutate_thunk { stmts := stmts, last_stmt := some (.ret [], trivia) } root
            canonical_path read_module = .error "called unwrap on a None value") ∧
    (∀ (stmts : List (OldStmt × Option String)) (trivia : Option String)
        (root : SourcemapNode) (canonical_path : String)
        (read_module : String → Except String OldAst),
        mutate_thunk { stmts := stmts, last_stmt := some (.brk, trivia) } root
            canonical_path read_module = .ok none) ∧
    (∀ (stmts : List (OldStmt × Option String)) (trivia : Option String)
        (root : SourcemapNode) (canonical_path : String)
        (read_module : String → Except String OldAst),
        mutate_thunk { stmts := stmts, last_stmt := some (.cont, trivia) } root
            canonical_path read_module = .ok none) ∧
    (∀ (stmts : List (OldStmt × Option String)) (trivia : Option String)
        (root : SourcemapNode) (canonical_path : String)
        (read_module : String → Except String OldAst)
        (e : OldExpression) (es : List OldExpression),
        (mutate_thunk { stmts := stmts, last_stmt := some (.ret (e :: es), trivia) }
            root canonical_path read_module).isOk
          = (mutate_thunk { stmts := stmts, last_stmt := some (.ret [e], trivia) }
            root canonical_path read_module).isOk) := by
  refine ⟨fun _ _ _ _ => rfl, fun _ _ _ _ _ => rfl, fun _ _ _ _ _ => rfl,
    fun _ _ _ _ _ => rfl, ?_⟩
  intro stmts trivia root canonical_path read_module e es
  simp only [mutate_thunk]
  repeat first
    | rfl
    | split

/-- C8 witness: the amended behavior evaluated on a link with no final
statement. -/
theorem c8_witness :
    mutate_thunk { stmts := [], last_stmt := none } batch_root "p" demo_read_module
      = .error "assertion failed: last_stmt is_some" :=
  c8_amended.1 [] batch_root "p" demo_read_module

/-- C7: a module with zero exported type declarations makes `mutate_link`
return `Unchanged` (no new text exists to write), and at the orchestrator a
write happens only when the module read for the link has at least one exported
type declaration — `Unchanged` and failing runs perform no write by
construction of the result. -/
theorem c7_only_changed_writes :
    (∀ (parsed_code : LAst) (return_expressions : List RExpression) (module_ast : LAst),
        exported_declarations module_ast = [] →
        mutate_link parsed_code return_expressions (.ok module_ast) = .ok .unchanged) ∧
    (∀ (parsed_code : OldAst) (root : SourcemapNode) (canonical_path : String)
        (read_module : String → Except String OldAst) (new_ast : OldAst),
        mutate_thunk parsed_code root canonical_path read_module = .ok (some new_ast) →
        ∃ file_path parsed_module, read_module file_path = .ok parsed_module ∧
          old_exported_declarations parsed_module ≠ []) := by
  constructor
  · intro parsed_code return_expressions module_ast h
    simp [mutate_link, type_declarations_from_source, h]
  · intro parsed_code root canonical_path read_module new_ast h
    unfold mutate_thunk at h
    repeat' split at h
    all_goals try exact Except.noConfusion h
    all_goals try simp at h
    rename_i x1 parsed_module hread
    split at h
    · exact absurd h (by simp)
    · rename_i hne
      exact ⟨_, parsed_module, hread, fun hnil => hne (by rw [hnil]; rfl)⟩

/-- C7 witness: an otherStmt-only module yields `Unchanged`, and the concrete
`Changed` run exhibits its non-empty module. -/
theorem c7_witness :
    mutate_link { stmts := [], last_stmt := none } []
        (.ok { stmts := [(.otherStmt, none)], last_stmt := none }) = .ok .unchanged ∧
    ∃ file_path parsed_module, demo_read_module file_path = .ok parsed_module ∧
      old_exported_declarations parsed_module ≠ [] :=
  ⟨c7_only_changed_writes.1 { stmts := [], last_stmt := none } []
      { stmts := [(.otherStmt, none)], last_stmt := none } rfl,
   c7_only_changed_writes.2 link_ast batch_root "link.lua" demo_read_module
      rewritten_link_ast rfl⟩

/-- C9: whenever a run of the orchestrator rewrites a link (reaches the
`Changed` outcome and writes), a second run on the rewritten link cannot
write again — the rewritten file returns the bare `REQUIRED_MODULE` symbol,
which the old matcher rejects (`unknown require expression`), so the second
run fails before any write and the file's bytes stay identical. The same
rejection hits the reparsed form of that return (a plain `Var` name), which
is also not a function call. -/
theorem c9_second_run_changes_nothing (parsed_code : OldAst) (root : SourcemapNode)
    (canonical_path : String) (read_module : String → Except String OldAst)
    (new_ast : OldAst)
    (h : mutate_thunk parsed_code root canonical_path read_module = .ok (some new_ast)) :
    ∀ (root' : SourcemapNode) (canonical_path' : String)
      (read_module' : String → Except String OldAst),
      mutate_thunk new_ast root' canonical_path' read_module'
        = .error "unknown require expression" := by
  intro root' canonical_path' read_module'
  unfold mutate_thunk at h
  repeat' split at h
  all_goals try exact Except.noConfusion h
  all_goals try simp at h
  split at h
  · exact absurd h (by simp)
  · injection h with h1
    injection h1 with h2
    subst h2
    rfl

/-- C9 witness: the concrete rewritten link is rejected unchanged on a second
run. -/
theorem c9_witness :
    mutate_thunk rewritten_link_ast batch_root "second" demo_read_module
      = .error "unknown require expression" :=
  c9_second_run_changes_nothing link_ast batch_root "link.lua" demo_read_module
    rewritten_link_ast rfl batch_root "second" demo_read_module

/-- C3 counterexample: a two-file batch whose first file fails: the whole
batch aborts with that error and performs NO write — in particular the second
file is not processed — although the second file alone reaches `Changed` and
is written. -/
theorem c3_counterexample :
    command_run batch_root demo_read_module [.file bad_link, .file good_link]
      = ([], some "assertion failed: last_stmt is_some") ∧
    command_run batch_root demo_read_module [.file good_link]
      = ([("link.lua", rewritten_link_ast)], none) :=
  ⟨rfl, rfl⟩

/-- C3 (amended): the batch does NOT continue past a failure: the first
per-file error aborts the run (every `mutate_thunk` call is chained with `?`),
so once a batch prefix has failed, appending further entries changes nothing —
they are neither processed nor written — and the overall result stays that
failure; only writes performed before the failure persist. -/
theorem c3_batch_stops_at_first_failure (root : SourcemapNode)
    (read_module : String → Except String OldAst)
    (entries more : List PackagesEntry)
    (h : (command_run root read_module entries).2.isSome = true) :
    command_run root read_module (entries ++ more)
      = command_run root read_module entries := by
  induction entries with
  | nil => simp [command_run] at h
  | cons e rest ih =>
    cases e with
    | file f =>
      rw [List.cons_append]
      unfold command_run at h ⊢
      split
      · rfl
      next hrl =>
        rw [hrl] at h
        simp only at h
        exact ih h
      next w hrl =>
        rw [hrl] at h
        simp only at h
        rw [ih h]
    | indexDirectory packages =>
      rw [List.cons_append]
      unfold command_run at h ⊢
      split
      · rfl
      next hidx =>
        rw [hidx] at h
        simp only at h
        rw [ih h]

/-- C3 witness: the stop-at-first-failure equation on the concrete failing
batch. -/
theorem c3_witness :
    command_run batch_root demo_read_module
        ([.file bad_link] ++ [.file good_link])
      = command_run batch_root demo_read_module [.file bad_link] :=
  c3_batch_stops_at_first_failure batch_root demo_read_module
    [.file bad_link] [.file good_link] rfl

/-- C5: for a link whose target module has at least one exported type
declaration, `mutate_link` returns `Changed` with exactly (a) a local binding
of the original return expressions under the fixed name `REQUIRED_MODULE`,
(b) one forwarding declaration per exported declaration in original module
order, forwarded with the known-name list, each followed by a newline, and
(c) a final `return REQUIRED_MODULE`; each forwarded declaration keeps the
original name, keeps the generic parameter list (same parameters in order,
defaults possibly dropped), and its body is the index expression
`REQUIRED_MODULE.<name>`, applying the declaration's own generic argument
list when the declaration is generic. -/
theorem c5_changed_structure (parsed_code : LAst) (return_expressions : List RExpression)
    (module_ast : LAst) (h : exported_declarations module_ast ≠ []) :
    mutate_link parsed_code return_expressions (.ok module_ast)
      = .ok (.changed { parsed_code with
          stmts := (LStmt.localAssignment ["REQUIRED_MODULE"] (some " = ")
                return_expressions, none)
            :: (exported_declarations module_ast).map (fun d =>
                (LStmt.exportedTypeDeclaration (create_new_type_declaration d
                    ((exported_declarations module_ast).map (fun s => s.type_name))),
                 some "\n")),
          last_stmt := some
            (LLastStmt.ret [RExpression.symbol (TokType.identifier "REQUIRED_MODULE")],
             none) }) ∧
    ∀ (d : ExportedTypeDeclaration) (known_type_names : List String),
      (create_new_type_declaration d known_type_names).type_name = d.type_name ∧
      ((create_new_type_declaration d known_type_names).generics).map
          (fun g => g.map (fun decl => decl.parameter))
        = (d.generics).map (fun g => g.map (fun decl => decl.parameter)) ∧
      (create_new_type_declaration d known_type_names).type_definition
        = TypeInfo.module "REQUIRED_MODULE"
            (match d.generics with
             | some generics =>
                 IndexedTypeInfo.generic d.type_name (generics.map (fun decl =>
                   match decl.parameter with
                   | .name token => TypeInfo.basic token
                   | .variadic name => TypeInfo.genericPack name))
             | none => IndexedTypeInfo.basic d.type_name) := by
  constructor
  · have hne : (exported_declarations module_ast).isEmpty = false := by
      cases hd : exported_declarations module_ast with
      | nil => exact absurd hd h
      | cons a l => rfl
    simp [mutate_link, type_declarations_from_source, hne,
      extract_require_into_local_stmt, re_export_type_declarations,
      create_return_require_variable]
  · intro d known_type_names
    unfold create_new_type_declaration
    cases hg : d.generics with
    | none => simp [hg]
    | some generics => simp [hg, strip_preserves_parameters]

/-- C5 witness: the synthesized content for a one-declaration module. -/
theorem c5_witness :
    mutate_link { stmts := [], last_stmt := none } [RExpression.otherExpr]
        (.ok { stmts := [(.exportedTypeDeclaration action_decl, none)],
               last_stmt := none })
      = .ok (.changed
          { stmts :=
              [(LStmt.localAssignment ["REQUIRED_MODULE"] (some " = ")
                  [RExpression.otherExpr], none),
               (LStmt.exportedTypeDeclaration
                  (create_new_type_declaration action_decl ["Action"]), some "\n")],
            last_stmt := some
              (LLastStmt.ret [RExpression.symbol (TokType.identifier "REQUIRED_MODULE")],
               none) }) :=
  (c5_changed_structure { stmts := [], last_stmt := none } [RExpression.otherExpr]
      { stmts := [(.exportedTypeDeclaration action_decl, none)], last_stmt := none }
      (fun hx => List.noConfusion hx)).1

/-- C1 counterexample: with the declaration order reversed —
`export type Value<T, S = Action>` FIRST, then `export type Action` — the
claim says the default `S = Action` is stripped (a strictly later declaration
is claimed to be out of scope), but the code keeps it: parameter 1 of the
first forwarded declaration still carries default `Action`. -/
theorem c1_counterexample :
    ((re_export_type_declarations [value_decl_rev, action_decl]).get? 0).map
        (fun s => match s.1 with
          | LStmt.exportedTypeDeclaration d => declaration_default_at d 1
          | _ => none)
      = some (some (TypeInfo.basic "Action")) ∧
    some (some (TypeInfo.basic "Action")) ≠ (some none : Option (Option TypeInfo)) :=
  ⟨rfl, by simp⟩

/-- C1 (amended): a parameter default that is a bare name `n` is kept exactly
when `n` is one of the declaration's own generic parameter names, a built-in
primitive name, or the name of ANY declaration of the module — later
declarations included, since the known-name list is computed from the whole
module before any forwarding; position in the module is irrelevant. -/
theorem c1_resolvable_set_includes_all_declarations
    (stmts : List ExportedTypeDeclaration) (i : Nat) (d : ExportedTypeDeclaration)
    (hd : stmts.get? i = some d)
    (g : List GenericDeclarationParameter) (hg : d.generics = some g)
    (j : Nat) (p : GenericDeclarationParameter) (hp : g.get? j = some p)
    (n : String) (hdef : p.default_type = some (TypeInfo.basic n)) :
    ∃ out p',
      (re_export_type_declarations stmts).get? i
        = some (LStmt.exportedTypeDeclaration out, some "\n") ∧
      out.type_name = d.type_name ∧
      (∃ g', out.generics = some g' ∧ g'.get? j = some p') ∧
      p'.parameter = p.parameter ∧
      p'.default_type =
        (if n ∈ g.map (fun q => parameter_info_name q.parameter)
            ∨ n ∈ builtin_type_names ∨ n ∈ stmts.map (fun s => s.type_name)
         then some (TypeInfo.basic n) else none) := by
  obtain ⟨dname, dgen, ddef⟩ := d
  replace hg : dgen = some g := hg
  subst hg
  obtain ⟨pparam, pdt⟩ := p
  replace hdef : pdt = some (TypeInfo.basic n) := hdef
  subst hdef
  have hre : (re_export_type_declarations stmts).get? i
      = some (LStmt.exportedTypeDeclaration
          (create_new_type_declaration ⟨dname, some g, ddef⟩
            (stmts.map (fun s => s.type_name))), some "\n") := by
    unfold re_export_type_declarations
    rw [List.get?_map, hd]
    rfl
  refine ⟨create_new_type_declaration ⟨dname, some g, ddef⟩
      (stmts.map (fun s => s.type_name)),
    (if should_keep_default_type (TypeInfo.basic n)
          (g.map (fun generic => parameter_info_name generic.parameter)
            ++ (builtin_type_names ++ stmts.map (fun s => s.type_name))) = true
     then (⟨pparam, some (TypeInfo.basic n)⟩ : GenericDeclarationParameter)
     else ⟨pparam, none⟩),
    hre, rfl, ⟨_, rfl, ?_⟩, ?_, ?_⟩
  · show (strip_unknown_default_generics g _).get? j = _
    unfold strip_unknown_default_generics
    rw [List.get?_map, hp]
    exact rfl
  · split <;> rfl
  · by_cases hmem : n ∈ g.map (fun q => parameter_info_name q.parameter)
        ∨ n ∈ builtin_type_names ∨ n ∈ stmts.map (fun s => s.type_name)
    · have hc : should_keep_default_type (TypeInfo.basic n)
          (g.map (fun generic => parameter_info_name generic.parameter)
            ++ (builtin_type_names ++ stmts.map (fun s => s.type_name))) = true := by
        show List.contains _ n = true
        simpa [List.mem_append] using hmem
      rw [if_pos hmem]
      simp [hc]
    · have hc : should_keep_default_type (TypeInfo.basic n)
          (g.map (fun generic => parameter_info_name generic.parameter)
            ++ (builtin_type_names ++ stmts.map (fun s => s.type_name))) = false := by
        show List.contains _ n = false
        simpa [List.mem_append] using hmem
      rw [if_neg hmem]
      simp [hc]

/-- C1 witness: in the reversed-order module — `Action` declared strictly
AFTER `Value<T, S = Action>` — the forwarded `Value` still satisfies the
amended keep-iff rule, whose condition holds through the all-declarations
disjunct, so the default is kept. -/
theorem c1_witness :
    ∃ out p',
      (re_export_type_declarations [value_decl_rev, action_decl]).get? 0
        = some (LStmt.exportedTypeDeclaration out, some "\n") ∧
      out.type_name = value_decl_rev.type_name ∧
      (∃ g', out.generics = some g' ∧ g'.get? 1 = some p') ∧
      p'.parameter = (GenericDeclarationParameter.mk (.name "S")
          (some (.basic "Action"))).parameter ∧
      p'.default_type =
        (if "Action" ∈ ([{ parameter := .name "T", default_type := none },
              { parameter := .name "S", default_type := some (.basic "Action") }] :
              List GenericDeclarationParameter).map
                (fun q => parameter_info_name q.parameter)
            ∨ "Action" ∈ builtin_type_names
            ∨ "Action" ∈ [value_decl_rev, action_decl].map (fun s => s.type_name)
         then some (TypeInfo.basic "Action") else none) :=
  c1_resolvable_set_includes_all_declarations [value_decl_rev, action_decl] 0
    value_decl_rev rfl
    [{ parameter := .name "T", default_type := none },
     { parameter := .name "S", default_type := some (.basic "Action") }] rfl
    1 { parameter := .name "S", default_type := some (.basic "Action") } rfl
    "Action" rfl
